import Mathlib

/-!
Verification of the negotiation-session core of react-native-starter-app.

Shallow embedding of:
* `src/ai/patternLibrary.ts` (pattern catalog and mode weight matrix)
* `src/ai/intentClassifier.ts` (`classifyIntent`)
* `src/services/CounterStrategyEngine.ts` (`generateCounterStrategies`)
* `src/state/sessionReducer.ts` (`sessionReducer`)

Numbers: JS floats are embedded as exact rationals (`ℚ`), millisecond
timestamps as `ℤ`.  The impure inputs of the source (`Date.now()`,
`Math.random()`, the module-level cooldown map) are passed explicitly.
-/

set_option maxRecDepth 4000

-- ───────────────────────── Data model (types/session.ts) ─────────────────────────

/-- `NegotiationPattern` enum; the nine tactics keyed by `PATTERN_LIBRARY`. -/
inductive NegotiationPattern where
  | ANCHORING
  | BUDGET_OBJECTION
  | AUTHORITY_PRESSURE
  | TIME_PRESSURE
  | DEFLECTION
  | STRENGTH_SIGNAL
  | POSITIVE_SIGNAL
  | NEGATIVE_SIGNAL
  | COMMITMENT_LANGUAGE
deriving DecidableEq

/-- `NegotiationMode` enum; the seven scenarios keyed by `MODE_INTENT_MATRIX`. -/
inductive NegotiationMode where
  | JOB_INTERVIEW
  | SALES
  | STARTUP_PITCH
  | SALARY_RAISE
  | INVESTOR_MEETING
  | CLIENT_NEGOTIATION
  | CUSTOM_SCENARIO'
deriving DecidableEq

inductive PatternSeverity where
  | low
  | medium
  | high
deriving DecidableEq

/-- The string value of each `NegotiationPattern` enum member. -/
def patternKey : NegotiationPattern → String
  | .ANCHORING => "anchoring"
  | .BUDGET_OBJECTION => "budget_objection"
  | .AUTHORITY_PRESSURE => "authority_pressure"
  | .TIME_PRESSURE => "time_pressure"
  | .DEFLECTION => "deflection"
  | .STRENGTH_SIGNAL => "strength_signal"
  | .POSITIVE_SIGNAL => "positive_signal"
  | .NEGATIVE_SIGNAL => "negative_signal"
  | .COMMITMENT_LANGUAGE => "commitment_language"

structure PatternDefinition where
  intent : NegotiationPattern
  displayName : String
  description : String
  structuralPatterns : List String
  topicTags : List String
  requiresNumber : Bool
  negativeSignals : List String
  baseWeight : ℚ
  severity : PatternSeverity
  suggestions : List String
deriving DecidableEq

structure DetectedPattern where
  id : String
  pattern : NegotiationPattern
  confidenceScore : ℚ
  suggestion : String
  severity : PatternSeverity
  timestamp : ℤ
  transcript : String
  context : String
deriving DecidableEq

structure TranscriptChunk where
  id : String
  text : String
  timestamp : ℤ
  hasPattern : Bool
deriving DecidableEq

structure CounterStrategy where
  tactic : NegotiationPattern
  tacticDisplayName : String
  confidence : ℚ
  suggestions : List String
  explanation : String
  timestamp : ℤ
deriving DecidableEq

-- ───────────────────────── Pattern catalog (ai/patternLibrary.ts) ─────────────────────────

/-- `PATTERN_LIBRARY`, transcribed entry by entry from `ai/patternLibrary.ts`. -/
def PATTERN_LIBRARY : NegotiationPattern → PatternDefinition
  | .ANCHORING =>
    { intent := .ANCHORING
      displayName := "Anchoring"
      description := "Setting initial price/expectation reference point"
      structuralPatterns :=
        ["we .* offer", "the .* range", "typically .* is", "industry standard",
         "expecting .* around", "base .* is", "looking .* for", "budget .* is"]
      topicTags :=
        ["salary", "compensation", "package", "budget", "price", "cost", "pay", "base", "range"]
      requiresNumber := true
      negativeSignals := ["maybe", "if possible", "eventually"]
      baseWeight := 0.65
      severity := .high
      suggestions :=
        ["Ask for a detailed cost breakdown",
         "Present your own alternative anchor point",
         "Request comparison data from multiple sources"] }
  | .BUDGET_OBJECTION =>
    { intent := .BUDGET_OBJECTION
      displayName := "Budget Objection"
      description := "Claiming budget constraints or financial limitations"
      structuralPatterns :=
        ["too expensive", "outside .* budget", "cost.* high", "we cannot afford",
         "beyond .* means", "budget is", "pricy", "not in .* budget",
         "don't have .* budget", "too much", "pricey"]
      topicTags :=
        ["money", "budget", "cost", "expensive", "price", "afford", "funds", "capital"]
      requiresNumber := false
      negativeSignals := ["flexible", "might work", "open to"]
      baseWeight := 0.70
      severity := .high
      suggestions :=
        ["Ask about budget flexibility and approval thresholds",
         "Break pricing into smaller phases or milestones",
         "Highlight ROI and value instead of focusing on cost"] }
  | .AUTHORITY_PRESSURE =>
    { intent := .AUTHORITY_PRESSURE
      displayName := "Authority Pressure"
      description := "Deferring to higher authority or claiming lack of decision power"
      structuralPatterns :=
        ["as per policy", "management decided", "company standard", "HR guideline",
         "need .* approval", "check with .* boss", "run it by", "up to my manager",
         "don't have .* authority", "out of my hands"]
      topicTags :=
        ["manager", "boss", "approval", "policy", "guideline", "hr", "director", "vp", "board"]
      requiresNumber := false
      negativeSignals := ["i decide", "my call", "we can do"]
      baseWeight := 0.75
      severity := .medium
      suggestions :=
        ["Ask for the specific decision criteria being used",
         "Suggest a joint review with all stakeholders",
         "Delay final commitment until decision-maker is present"] }
  | .TIME_PRESSURE =>
    { intent := .TIME_PRESSURE
      displayName := "Time Pressure"
      description := "Creating urgency or imposing deadlines"
      structuralPatterns :=
        ["we need this today", "deadline is", "urgent decision", "limited time",
         "offer expires", "need this by", "as soon as possible", "right away",
         "move fast", "quickly", "by the end of"]
      topicTags :=
        ["today", "tomorrow", "urgent", "deadline", "asap", "quickly", "rush", "speed", "now"]
      requiresNumber := false
      negativeSignals := ["no rush", "take your time", "whenever"]
      baseWeight := 0.65
      severity := .medium
      suggestions :=
        ["Ask if the deadline is truly final or flexible",
         "Introduce a new variable to reset the timeline",
         "Propose a pause — revisit with fresh perspective"] }
  | .DEFLECTION =>
    { intent := .DEFLECTION
      displayName := "Deflection"
      description := "Avoiding commitment or postponing decision via topic shift"
      structuralPatterns :=
        ["let's focus on", "not the main issue", "get back to that",
         "right now .* discussing", "circle back", "talk about .* later",
         "park that", "take that offline", "moving on"]
      topicTags :=
        ["later", "another time", "focus", "discussing", "issue", "offline", "park"]
      requiresNumber := false
      negativeSignals := ["i agree", "let us decide now", "perfect"]
      baseWeight := 0.60
      severity := .medium
      suggestions :=
        ["Pin down specific concerns driving the hesitation",
         "Set a concrete follow-up date and time right now",
         "Ask what information would help them decide today"] }
  | .STRENGTH_SIGNAL =>
    { intent := .STRENGTH_SIGNAL
      displayName := "Strength Signal"
      description := "Showcasing positive applicant background or achievements"
      structuralPatterns :=
        ["led a team", "achieved", "improved .* by", "increased revenue",
         "managed .* projects", "successfully delivered", "spearheaded",
         "was responsible for", "top performer", "exceeded goals"]
      topicTags :=
        ["leadership", "revenue", "successful", "achieved", "driven", "managed",
         "delivered", "exceeded", "impact"]
      requiresNumber := false
      negativeSignals := ["assisted", "helped", "was part of"]
      baseWeight := 0.70
      severity := .low
      suggestions :=
        ["Leverage this momentum to position yourself firmly",
         "Directly tie this achievement to their current needs",
         "Use this high-value moment to pivot to compensation framing"] }
  | .POSITIVE_SIGNAL =>
    { intent := .POSITIVE_SIGNAL
      displayName := "Positive Signal"
      description := "Expressions of interest, agreement, or enthusiasm"
      structuralPatterns :=
        ["sounds good", "makes sense", "that works", "i like that", "great idea",
         "we agree", "we can do that", "looks perfect", "exactly right"]
      topicTags :=
        ["yes", "agree", "perfect", "exactly", "love", "great", "awesome", "good"]
      requiresNumber := false
      negativeSignals := ["however", "but"]
      baseWeight := 0.80
      severity := .low
      suggestions :=
        ["Capitalize on momentum — move toward commitment",
         "Summarize agreed points and lock them in writing",
         "Ask about next steps while enthusiasm is high"] }
  | .NEGATIVE_SIGNAL =>
    { intent := .NEGATIVE_SIGNAL
      displayName := "Negative Signal"
      description := "Expressions of concern, disagreement, or rejection"
      structuralPatterns :=
        ["not sure", "worried about", "don't think", "is a problem", "have concerns",
         "cannot work", "does not work", "impossible", "dealbreaker"]
      topicTags :=
        ["issue", "problem", "concerned", "skeptical", "worry", "no", "cannot", "dealbreaker"]
      requiresNumber := false
      negativeSignals := ["maybe", "could work"]
      baseWeight := 0.75
      severity := .high
      suggestions :=
        ["Probe for the specific concern behind the negativity",
         "Acknowledge their worry and provide concrete evidence",
         "Offer an alternative approach that addresses the issue"] }
  | .COMMITMENT_LANGUAGE =>
    { intent := .COMMITMENT_LANGUAGE
      displayName := "Commitment Language"
      description := "Strong commitment or decision-making language"
      structuralPatterns :=
        ["let's do it", "we are in", "ready to start", "sign the", "move forward",
         "go ahead", "let's proceed"]
      topicTags :=
        ["deal", "agreed", "commit", "proceed", "sign", "forward", "start"]
      requiresNumber := false
      negativeSignals := ["maybe later", "soon"]
      baseWeight := 0.85
      severity := .low
      suggestions :=
        ["Document the agreement immediately in writing",
         "Clarify all remaining terms before finalizing",
         "Confirm timeline and deliverables for next steps"] }

structure ModeMatrix where
  highWeight : List NegotiationPattern
  mediumWeight : List NegotiationPattern
  lowWeight : List NegotiationPattern
deriving DecidableEq

/-- `MODE_INTENT_MATRIX` from `ai/patternLibrary.ts`. -/
def MODE_INTENT_MATRIX : NegotiationMode → ModeMatrix
  | .SALARY_RAISE =>
    { highWeight := [.ANCHORING, .BUDGET_OBJECTION]
      mediumWeight := [.AUTHORITY_PRESSURE, .COMMITMENT_LANGUAGE]
      lowWeight := [.STRENGTH_SIGNAL, .DEFLECTION] }
  | .JOB_INTERVIEW =>
    { highWeight := [.STRENGTH_SIGNAL, .DEFLECTION]
      mediumWeight := [.POSITIVE_SIGNAL, .TIME_PRESSURE]
      lowWeight := [.ANCHORING, .BUDGET_OBJECTION] }
  | .STARTUP_PITCH =>
    { highWeight := [.BUDGET_OBJECTION, .DEFLECTION]
      mediumWeight := [.TIME_PRESSURE, .POSITIVE_SIGNAL]
      lowWeight := [.STRENGTH_SIGNAL] }
  | .SALES =>
    { highWeight := [.BUDGET_OBJECTION, .TIME_PRESSURE, .COMMITMENT_LANGUAGE]
      mediumWeight := [.AUTHORITY_PRESSURE, .DEFLECTION]
      lowWeight := [.STRENGTH_SIGNAL] }
  | .INVESTOR_MEETING =>
    { highWeight := [.DEFLECTION, .BUDGET_OBJECTION, .NEGATIVE_SIGNAL]
      mediumWeight := [.TIME_PRESSURE, .AUTHORITY_PRESSURE]
      lowWeight := [.STRENGTH_SIGNAL] }
  | .CLIENT_NEGOTIATION =>
    { highWeight := [.ANCHORING, .BUDGET_OBJECTION, .TIME_PRESSURE]
      mediumWeight := [.AUTHORITY_PRESSURE, .DEFLECTION]
      lowWeight := [.STRENGTH_SIGNAL] }
  | .CUSTOM_SCENARIO' =>
    { highWeight := [.ANCHORING, .DEFLECTION, .NEGATIVE_SIGNAL]
      mediumWeight := [.TIME_PRESSURE, .BUDGET_OBJECTION]
      lowWeight := [.STRENGTH_SIGNAL] }

-- ───────────────────────── Text matching primitives ─────────────────────────

/-- JS `\w`: ASCII letters, digits, underscore. -/
def isWordChar (c : Char) : Bool := c.isAlphanum || c == '_'

def startsWithChars : List Char → List Char → Bool
  | [], _ => true
  | _ :: _, [] => false
  | p :: ps, c :: cs => p == c && startsWithChars ps cs

/-- JS `String.prototype.includes`. -/
def containsSubstr (pat : List Char) (cs : List Char) : Bool :=
  cs.tails.any (startsWithChars pat)

/-- Splits a regex source string on `.*`.  The structural patterns of the
catalog use no regex construct other than literal characters separated by
`.*`, so a pattern is embedded as its list of literal segments. -/
def splitDotStar : List Char → List (List Char)
  | [] => [[]]
  | '.' :: '*' :: rest => [] :: splitDotStar rest
  | c :: rest =>
    match splitDotStar rest with
    | [] => [[c]]
    | s :: ss => (c :: s) :: ss

/-- Suffixes of `cs` reachable by skipping a newline-free prefix
(JS `.` does not match a newline). -/
def noNewlineSuffixes : List Char → List (List Char)
  | [] => [[]]
  | c :: cs => (c :: cs) :: (if c == '\n' then [] else noNewlineSuffixes cs)

/-- Matches `seg₀.*seg₁.*…` anchored at the start of `cs`. -/
def matchSegsFrom : List (List Char) → List Char → Bool
  | [], _ => true
  | seg :: rest, cs =>
    startsWithChars seg cs &&
      (match rest with
       | [] => true
       | r :: rs => (noNewlineSuffixes (cs.drop seg.length)).any (matchSegsFrom (r :: rs)))

/-- JS `new RegExp(pat, 'i').test(text)` for the catalog's pattern subset;
`pat` is supplied already lower-cased. -/
def regexTest (pat : List Char) (cs : List Char) : Bool :=
  cs.tails.any (matchSegsFrom (splitDotStar pat))

def wordish : Option Char → Bool
  | none => false
  | some c => isWordChar c

/-- JS `\b`: exactly one of the two neighbouring characters is a word char. -/
def boundaryB (a b : Option Char) : Bool := wordish a != wordish b

def matchTagAt (tag : List Char) (prev : Option Char) (cs : List Char) : Bool :=
  startsWithChars tag cs && boundaryB prev tag.head? &&
    boundaryB tag.getLast? ((cs.drop tag.length).head?)

def containsTagAux (tag : List Char) (prev : Option Char) : List Char → Bool
  | [] => false
  | c :: cs => matchTagAt tag prev (c :: cs) || containsTagAux tag (some c) cs

/-- JS `new RegExp("\\b" ++ tag ++ "\\b", 'i').test(text)` for a literal tag. -/
def containsTag (tag : List Char) (cs : List Char) : Bool :=
  containsTagAux tag none cs

def lowerP (s : String) : List Char := s.data.map Char.toLower

/-- `text.toLowerCase()` as a char list. -/
def lowerChars (text : String) : List Char := text.data.map Char.toLower

def numberWords : List String :=
  ["one", "two", "three", "four", "five", "six", "seven", "eight", "nine", "ten",
   "hundred", "thousand", "million", "k", "m"]

/-- `hasNumbers` check of `classifyIntent`:
`/\d+/.test(lowerText) || /\b(one|…|k|m)\b/.test(lowerText)`. -/
def hasNumbers (cs : List Char) : Bool :=
  cs.any Char.isDigit || numberWords.any (fun w => containsTag (lowerP w) cs)

-- ───────────────────────── Classifier (ai/intentClassifier.ts) ─────────────────────────

structure Candidate where
  patternDef : PatternDefinition
  score : ℚ
deriving DecidableEq

/-- Structural match: 1.0 if any structural pattern tests true, else 0. -/
def structScoreQ (pd : PatternDefinition) (lowerText : List Char) : ℚ :=
  if pd.structuralPatterns.any (fun p => regexTest (lowerP p) lowerText) then 1 else 0

/-- Topic match: 0.5 per matching topic tag, capped at 1.0. -/
def topicScoreQ (pd : PatternDefinition) (lowerText : List Char) : ℚ :=
  min (((pd.topicTags.filter (fun tag => containsTag (lowerP tag) lowerText)).length : ℚ) * 0.5) 1

/-- Numeric boost: 1.0 when the definition requires a number and one is present. -/
def numericScoreQ (pd : PatternDefinition) (hasNum : Bool) : ℚ :=
  if pd.requiresNumber && hasNum then 1 else 0

/-- Negative-signal penalty: 1.0 if any negating phrase is a substring. -/
def negativePenaltyQ (pd : PatternDefinition) (lowerText : List Char) : ℚ :=
  if pd.negativeSignals.any (fun neg => containsSubstr (lowerP neg) lowerText) then 1 else 0

/-- Dynamic base weighting: full base weight on a structural match, 0.7× otherwise. -/
def primaryMatchScoreQ (pd : PatternDefinition) (lowerText : List Char) : ℚ :=
  if structScoreQ pd lowerText > 0 then pd.baseWeight else pd.baseWeight * 0.7

def rawScoreQ (pd : PatternDefinition) (lowerText : List Char) (hasNum : Bool) : ℚ :=
  primaryMatchScoreQ pd lowerText + 0.25 * topicScoreQ pd lowerText
    + 0.10 * numericScoreQ pd hasNum - 0.25 * negativePenaltyQ pd lowerText

/-- Mode intelligence filter: +0.15 for a high-weight intent, −0.15 for low-weight. -/
def modeAdjustmentQ (mode : NegotiationMode) (pd : PatternDefinition) : ℚ :=
  if pd.intent ∈ (MODE_INTENT_MATRIX mode).highWeight then 0.15
  else if pd.intent ∈ (MODE_INTENT_MATRIX mode).lowWeight then -0.15
  else 0

def clamp0100 (x : ℚ) : ℚ := min (max x 0) 100

/-- One iteration of the evaluation loop of `classifyIntent`: `none` when the
tactic is skipped (irrelevant) or discarded (numeric gate), otherwise the
candidate with its final 0–100 confidence. -/
def evalTactic (lowerText : List Char) (hasNum : Bool) (mode : NegotiationMode)
    (sens : ℚ) (t : NegotiationPattern) : Option Candidate :=
  if structScoreQ (PATTERN_LIBRARY t) lowerText = 0 ∧ topicScoreQ (PATTERN_LIBRARY t) lowerText = 0
  then none
  else if (PATTERN_LIBRARY t).requiresNumber = true ∧ hasNum = false then none
  else
    some ⟨PATTERN_LIBRARY t,
      clamp0100 (((rawScoreQ (PATTERN_LIBRARY t) lowerText hasNum
        + modeAdjustmentQ mode (PATTERN_LIBRARY t)) * sens) * 100)⟩

/-- Enumeration order of `Object.values(NegotiationPattern)` (catalog key order). -/
def allPatternsList : List NegotiationPattern :=
  [.ANCHORING, .BUDGET_OBJECTION, .AUTHORITY_PRESSURE, .TIME_PRESSURE, .DEFLECTION,
   .STRENGTH_SIGNAL, .POSITIVE_SIGNAL, .NEGATIVE_SIGNAL, .COMMITMENT_LANGUAGE]

/-- The `candidates` array accumulated by `classifyIntent`. -/
def classifierCandidates (text : String) (mode : NegotiationMode) (sens : ℚ) : List Candidate :=
  let lowerText := lowerChars text
  let hasNum := hasNumbers lowerText
  allPatternsList.filterMap (evalTactic lowerText hasNum mode sens)

/-- JS stable sort comparator `(a, b) => b.score - a.score`. -/
def byScoreDesc : Candidate → Candidate → Prop := fun a b => b.score ≤ a.score

instance : DecidableRel byScoreDesc := fun a b => inferInstanceAs (Decidable (b.score ≤ a.score))

instance : IsTotal Candidate byScoreDesc := ⟨fun a b => le_total b.score a.score⟩

instance : IsTrans Candidate byScoreDesc := ⟨fun _ _ _ h1 h2 => le_trans h2 h1⟩

/-- `pickRandomSuggestion`, with `Math.random()` replaced by an arbitrary index. -/
def pickRandomSuggestion (suggestions : List String) (randIdx : ℕ) : String :=
  if suggestions.isEmpty then "Acknowledge and pivot."
  else suggestions.getD (randIdx % suggestions.length) ""

/-- `classifyIntent` from `ai/intentClassifier.ts`.  `timestamp` stands for
`Date.now()` and `randIdx` for the random suggestion choice. -/
def classifyIntent (text : String) (mode : NegotiationMode) (sens : ℚ)
    (timestamp : ℤ) (randIdx : ℕ) : List DetectedPattern :=
  match (List.insertionSort byScoreDesc (classifierCandidates text mode sens)).head? with
  | none => []
  | some winner =>
    if 60 ≤ winner.score then
      [{ id := patternKey winner.patternDef.intent ++ "_" ++ toString timestamp
         pattern := winner.patternDef.intent
         confidenceScore := winner.score
         suggestion := pickRandomSuggestion winner.patternDef.suggestions randIdx
         severity := winner.patternDef.severity
         timestamp := timestamp
         transcript := text
         context := text.take 50 ++ "..." }]
    else []

-- ───────────────────────── Strategy engine (services/CounterStrategyEngine.ts) ─────────────────────────

structure CounterStrategyDefinition where
  suggestions : List String
  explanation : String
deriving DecidableEq

/-- `COUNTER_STRATEGY_MAP`: a definition for eight of the nine tactics; the
record has no entry for `STRENGTH_SIGNAL`. -/
def COUNTER_STRATEGY_MAP : NegotiationPattern → Option CounterStrategyDefinition
  | .ANCHORING =>
    some { suggestions :=
             ["Ask for a detailed cost breakdown",
              "Present your own alternative anchor point",
              "Request comparison data from multiple sources"]
           explanation :=
             "Anchoring attempts to set a psychological reference point. Counter by introducing your own data-backed reference or questioning their basis." }
  | .BUDGET_OBJECTION =>
    some { suggestions :=
             ["Ask about budget flexibility and approval thresholds",
              "Break pricing into smaller phases or milestones",
              "Highlight ROI and value instead of focusing on cost"]
           explanation :=
             "Budget objection often masks value hesitation rather than a real constraint. Shift the conversation from cost to return on investment." }
  | .AUTHORITY_PRESSURE =>
    some { suggestions :=
             ["Ask for the specific decision criteria being used",
              "Suggest a joint review with all stakeholders",
              "Delay final commitment until decision-maker is present"]
           explanation :=
             "Authority pressure reduces your negotiation space by introducing an unseen decision-maker. Get access to the real authority." }
  | .TIME_PRESSURE =>
    some { suggestions :=
             ["Ask if the deadline is truly final or flexible",
              "Introduce a new variable to reset the timeline",
              "Propose a pause — revisit with fresh perspective"]
           explanation :=
             "Urgency framing creates artificial pressure to force quick decisions. Verify the deadline and resist rushing critical commitments." }
  | .DEFLECTION =>
    some { suggestions :=
             ["Pin down specific concerns driving the hesitation",
              "Set a concrete follow-up date and time right now",
              "Ask what information would help them decide today"]
           explanation :=
             "Deflection delays decisions without surfacing real objections. Gently identify what's actually holding them back." }
  | .STRENGTH_SIGNAL => none
  | .POSITIVE_SIGNAL =>
    some { suggestions :=
             ["Capitalize on momentum — move toward commitment",
              "Summarize agreed points and lock them in writing",
              "Ask about next steps while enthusiasm is high"]
           explanation :=
             "Positive signals indicate openness. Strike while the iron is hot — clarify terms and advance toward agreement." }
  | .NEGATIVE_SIGNAL =>
    some { suggestions :=
             ["Probe for the specific concern behind the negativity",
              "Acknowledge their worry and provide concrete evidence",
              "Offer an alternative approach that addresses the issue"]
           explanation :=
             "Negative signals reveal underlying objections. Address them directly with empathy and data rather than ignoring them." }
  | .COMMITMENT_LANGUAGE =>
    some { suggestions :=
             ["Document the agreement immediately in writing",
              "Clarify all remaining terms before finalizing",
              "Confirm timeline and deliverables for next steps"]
           explanation :=
             "Commitment language signals readiness to close. Ensure all details are clear and get confirmation in writing." }

/-- The module-level `cooldownTracker` map, passed explicitly. -/
def CooldownTracker : Type := NegotiationPattern → Option ℤ

def emptyTracker : CooldownTracker := fun _ => none

/-- The cooldown test of `generateCounterStrategies`:
`lastTriggered && now - lastTriggered < cooldownMs` (JS truthiness: a stored
timestamp of `0` is falsy and skips the check). -/
def cooldownActive (tracker : CooldownTracker) (tactic : NegotiationPattern)
    (nowMs cooldownMs : ℤ) : Bool :=
  match tracker tactic with
  | none => false
  | some last => decide (last ≠ 0) && decide (nowMs - last < cooldownMs)

/-- `generateCounterStrategies`, with `Date.now()` and the tracker explicit;
returns the result together with the updated tracker. -/
def generateCounterStrategies (tactic : NegotiationPattern) (confidence : ℚ)
    (cooldownMs : ℤ) (threshold : ℚ) (tracker : CooldownTracker) (nowMs : ℤ) :
    Option CounterStrategy × CooldownTracker :=
  if confidence < threshold then (none, tracker)
  else if cooldownActive tracker tactic nowMs cooldownMs then (none, tracker)
  else
    match COUNTER_STRATEGY_MAP tactic with
    | none => (none, tracker)
    | some d =>
      (some { tactic := tactic
              tacticDisplayName := (PATTERN_LIBRARY tactic).displayName
              confidence := confidence
              suggestions := d.suggestions
              explanation := d.explanation
              timestamp := nowMs },
       fun t => if t = tactic then some nowMs else tracker t)

-- ───────────────────────── Session state machine (state/sessionReducer.ts) ─────────────────────────

inductive SessionStatus where
  | IDLE
  | RUNNING
  | ENDED
deriving DecidableEq

structure SessionState where
  status : SessionStatus
  mode : NegotiationMode
  transcript : List TranscriptChunk
  transcriptText : String
  detectedPatterns : List DetectedPattern
  tactic : Option NegotiationPattern
  confidence : ℚ
  suggestions : List String
  activeStrategy : Option CounterStrategy
  lastTacticAtMs : ℤ
  startTime : ℤ
  duration : ℤ
  focusScore : ℚ
  audioLevel : ℚ
  error : Option String
deriving DecidableEq

def createInitialState (mode : NegotiationMode := .SALES) : SessionState :=
  { status := .IDLE
    mode := mode
    transcript := []
    transcriptText := ""
    detectedPatterns := []
    tactic := none
    confidence := 0
    suggestions := []
    activeStrategy := none
    lastTacticAtMs := 0
    startTime := 0
    duration := 0
    focusScore := 100
    audioLevel := 0
    error := none }

inductive SessionAction where
  | START_SESSION (mode : NegotiationMode) (startTime : ℤ)
  | STOP_SESSION
  | TRANSCRIPT_CHUNK (chunk : TranscriptChunk)
  | TACTIC_DETECTED (patterns : List DetectedPattern) (focusScore : ℚ) (timestampMs : ℤ)
  | UPDATE_DURATION (duration : ℤ)
  | UPDATE_AUDIO_LEVEL (level : ℚ)
  | SET_ERROR (message : String)
  | RESET

def CONFIDENCE_THRESHOLD : ℚ := 70

def TACTIC_COOLDOWN_MS : ℤ := 8000

/-- JS stable sort comparator `(a, b) => b.confidenceScore - a.confidenceScore`. -/
def byConfDesc : DetectedPattern → DetectedPattern → Prop :=
  fun a b => b.confidenceScore ≤ a.confidenceScore

instance : DecidableRel byConfDesc :=
  fun a b => inferInstanceAs (Decidable (b.confidenceScore ≤ a.confidenceScore))

instance : IsTotal DetectedPattern byConfDesc :=
  ⟨fun a b => le_total b.confidenceScore a.confidenceScore⟩

instance : IsTrans DetectedPattern byConfDesc := ⟨fun _ _ _ h1 h2 => le_trans h2 h1⟩

/-- The incoming patterns whose ids are not already present (`Set` dedup). -/
def newPatternsOf (st : SessionState) (patterns : List DetectedPattern) : List DetectedPattern :=
  patterns.filter (fun p => !(st.detectedPatterns.map (fun q => q.id)).contains p.id)

/-- `allPatterns` after the in-place stable sort by confidence descending. -/
def sortedMerged (st : SessionState) (patterns : List DetectedPattern) : List DetectedPattern :=
  List.insertionSort byConfDesc (st.detectedPatterns ++ newPatternsOf st patterns)

/-- Transcript chunks flagged with `hasPattern` when a new pattern's source
text equals the chunk text. -/
def markedTranscript (st : SessionState) (patterns : List DetectedPattern) : List TranscriptChunk :=
  st.transcript.map (fun chunk =>
    if (newPatternsOf st patterns).any (fun p => p.transcript == chunk.text)
    then { chunk with hasPattern := true } else chunk)

/-- `sessionReducer` from `state/sessionReducer.ts`.  The engine's mutable
cooldown map and `Date.now()` are passed through as `tracker` / `nowMs`. -/
def sessionReducer (st : SessionState) (action : SessionAction)
    (tracker : CooldownTracker) (nowMs : ℤ) : SessionState × CooldownTracker :=
  match action with
  | .START_SESSION mode startTime =>
    ({ createInitialState mode with status := .RUNNING, startTime := startTime }, tracker)
  | .STOP_SESSION => ({ st with status := .ENDED }, tracker)
  | .TRANSCRIPT_CHUNK chunk =>
    if st.status ≠ .RUNNING then (st, tracker)
    else
      ({ st with transcript := st.transcript ++ [chunk]
                 transcriptText := st.transcriptText ++ " " ++ chunk.text }, tracker)
  | .TACTIC_DETECTED patterns focusScore timestampMs =>
    if st.status ≠ .RUNNING then (st, tracker)
    else
      match (sortedMerged st patterns).head? with
      | none =>
        ({ st with detectedPatterns := sortedMerged st patterns
                   transcript := markedTranscript st patterns
                   focusScore := focusScore }, tracker)
      | some top =>
        if top.confidenceScore < CONFIDENCE_THRESHOLD then
          ({ st with detectedPatterns := sortedMerged st patterns
                     transcript := markedTranscript st patterns
                     focusScore := focusScore }, tracker)
        else if st.tactic = some top.pattern ∧
                timestampMs - st.lastTacticAtMs < TACTIC_COOLDOWN_MS then
          ({ st with detectedPatterns := sortedMerged st patterns
                     transcript := markedTranscript st patterns
                     focusScore := focusScore }, tracker)
        else
          let res := generateCounterStrategies top.pattern top.confidenceScore
            TACTIC_COOLDOWN_MS CONFIDENCE_THRESHOLD tracker nowMs
          ({ st with detectedPatterns := sortedMerged st patterns
                     transcript := markedTranscript st patterns
                     tactic := some top.pattern
                     confidence := top.confidenceScore
                     suggestions := match res.1 with
                                    | some s => s.suggestions
                                    | none => st.suggestions
                     activeStrategy := match res.1 with
                                       | some s => some s
                                       | none => st.activeStrategy
                     lastTacticAtMs := timestampMs
                     focusScore := focusScore }, res.2)
  | .UPDATE_DURATION d => ({ st with duration := d }, tracker)
  | .UPDATE_AUDIO_LEVEL l => ({ st with audioLevel := l }, tracker)
  | .SET_ERROR msg => ({ st with error := some msg }, tracker)
  | .RESET => (createInitialState st.mode, tracker)

-- ───────────────────────── Basic catalog lemmas ─────────────────────────

lemma library_intent (t : NegotiationPattern) : (PATTERN_LIBRARY t).intent = t := by
  cases t <;> rfl

lemma baseWeight_ge (t : NegotiationPattern) : (3/5 : ℚ) ≤ (PATTERN_LIBRARY t).baseWeight := by
  cases t <;> norm_num [PATTERN_LIBRARY]

-- ───────────────────────── Strategy engine case equations ─────────────────────────

lemma generate_lowConf {t : NegotiationPattern} {conf : ℚ} {cd : ℤ} {th : ℚ}
    {tr : CooldownTracker} {now : ℤ} (h : conf < th) :
    generateCounterStrategies t conf cd th tr now = (none, tr) := by
  simp [generateCounterStrategies, h]

lemma generate_onCooldown {t : NegotiationPattern} {conf : ℚ} {cd : ℤ} {th : ℚ}
    {tr : CooldownTracker} {now : ℤ} (h1 : ¬ conf < th)
    (h2 : cooldownActive tr t now cd = true) :
    generateCounterStrategies t conf cd th tr now = (none, tr) := by
  simp [generateCounterStrategies, h1, h2]

lemma generate_noDef {t : NegotiationPattern} {conf : ℚ} {cd : ℤ} {th : ℚ}
    {tr : CooldownTracker} {now : ℤ} (h1 : ¬ conf < th)
    (h2 : cooldownActive tr t now cd = false) (h3 : COUNTER_STRATEGY_MAP t = none) :
    generateCounterStrategies t conf cd th tr now = (none, tr) := by
  simp [generateCounterStrategies, h1, h2, h3]

lemma generate_someDef {t : NegotiationPattern} {conf : ℚ} {cd : ℤ} {th : ℚ}
    {tr : CooldownTracker} {now : ℤ} {d : CounterStrategyDefinition} (h1 : ¬ conf < th)
    (h2 : cooldownActive tr t now cd = false) (h3 : COUNTER_STRATEGY_MAP t = some d) :
    generateCounterStrategies t conf cd th tr now =
      (some { tactic := t
              tacticDisplayName := (PATTERN_LIBRARY t).displayName
              confidence := conf
              suggestions := d.suggestions
              explanation := d.explanation
              timestamp := now },
       fun t' => if t' = t then some now else tr t') := by
  simp [generateCounterStrategies, h1, h2, h3]

-- ───────────────────────── Reducer step equations ─────────────────────────

lemma reducer_chunk_notRunning {st : SessionState} {chunk : TranscriptChunk}
    {tr : CooldownTracker} {now : ℤ} (h : st.status ≠ .RUNNING) :
    sessionReducer st (.TRANSCRIPT_CHUNK chunk) tr now = (st, tr) := by
  simp [sessionReducer, h]

lemma reducer_td_notRunning {st : SessionState} {patterns : List DetectedPattern} {focus : ℚ}
    {ts : ℤ} {tr : CooldownTracker} {now : ℤ} (h : st.status ≠ .RUNNING) :
    sessionReducer st (.TACTIC_DETECTED patterns focus ts) tr now = (st, tr) := by
  simp [sessionReducer, h]

lemma reducer_td_guard2 {st : SessionState} {patterns : List DetectedPattern} {focus : ℚ}
    {ts : ℤ} {tr : CooldownTracker} {now : ℤ} {top : DetectedPattern}
    (h : st.status = .RUNNING) (hh : (sortedMerged st patterns).head? = some top)
    (hc : top.confidenceScore < CONFIDENCE_THRESHOLD) :
    sessionReducer st (.TACTIC_DETECTED patterns focus ts) tr now =
      ({ st with detectedPatterns := sortedMerged st patterns
                 transcript := markedTranscript st patterns
                 focusScore := focus }, tr) := by
  simp [sessionReducer, h, hh, hc]

lemma reducer_td_guard3 {st : SessionState} {patterns : List DetectedPattern} {focus : ℚ}
    {ts : ℤ} {tr : CooldownTracker} {now : ℤ} {top : DetectedPattern}
    (h : st.status = .RUNNING) (hh : (sortedMerged st patterns).head? = some top)
    (hc : ¬ top.confidenceScore < CONFIDENCE_THRESHOLD)
    (hg : st.tactic = some top.pattern ∧ ts - st.lastTacticAtMs < TACTIC_COOLDOWN_MS) :
    sessionReducer st (.TACTIC_DETECTED patterns focus ts) tr now =
      ({ st with detectedPatterns := sortedMerged st patterns
                 transcript := markedTranscript st patterns
                 focusScore := focus }, tr) := by
  simp [sessionReducer, h, hh, hc, hg.1, hg.2]

lemma reducer_td_accept {st : SessionState} {patterns : List DetectedPattern} {focus : ℚ}
    {ts : ℤ} {tr : CooldownTracker} {now : ℤ} {top : DetectedPattern}
    (h : st.status = .RUNNING) (hh : (sortedMerged st patterns).head? = some top)
    (hc : ¬ top.confidenceScore < CONFIDENCE_THRESHOLD)
    (hg : ¬ (st.tactic = some top.pattern ∧ ts - st.lastTacticAtMs < TACTIC_COOLDOWN_MS)) :
    sessionReducer st (.TACTIC_DETECTED patterns focus ts) tr now =
      (let res := generateCounterStrategies top.pattern top.confidenceScore
        TACTIC_COOLDOWN_MS CONFIDENCE_THRESHOLD tr now
       ({ st with detectedPatterns := sortedMerged st patterns
                  transcript := markedTranscript st patterns
                  tactic := some top.pattern
                  confidence := top.confidenceScore
                  suggestions := match res.1 with
                                 | some s => s.suggestions
                                 | none => st.suggestions
                  activeStrategy := match res.1 with
                                    | some s => some s
                                    | none => st.activeStrategy
                  lastTacticAtMs := ts
                  focusScore := focus }, res.2)) := by
  simp [sessionReducer, h, hh, hc, hg]

-- ───────────────────────── Claim C1 ─────────────────────────

/-- C1: for every session state with status ENDED, delivering a
`TACTIC_DETECTED` (ClassificationResult) or `TRANSCRIPT_CHUNK` event returns
the state (and cooldown tracker) completely unchanged — in particular every
field other than status is unchanged and status stays ENDED — so late
asynchronous results are dropped, not applied. -/
theorem C1_late_event_safety (st : SessionState) (tracker : CooldownTracker)
    (h : st.status = .ENDED) :
    (∀ chunk nowMs, sessionReducer st (.TRANSCRIPT_CHUNK chunk) tracker nowMs = (st, tracker)) ∧
    (∀ patterns focus ts nowMs,
      sessionReducer st (.TACTIC_DETECTED patterns focus ts) tracker nowMs = (st, tracker)) := by
  refine ⟨fun chunk nowMs => ?_, fun patterns focus ts nowMs => ?_⟩
  · exact reducer_chunk_notRunning (by simp [h])
  · exact reducer_td_notRunning (by simp [h])

/-- Witness for C1 at a concrete ended state and concrete events. -/
theorem C1_late_event_safety_witness :
    sessionReducer { createInitialState .SALES with status := .ENDED }
        (.TRANSCRIPT_CHUNK ⟨"c1", "hello", 5, false⟩) emptyTracker 9 =
      ({ createInitialState .SALES with status := .ENDED }, emptyTracker) ∧
    sessionReducer { createInitialState .SALES with status := .ENDED }
        (.TACTIC_DETECTED [] 50 7) emptyTracker 9 =
      ({ createInitialState .SALES with status := .ENDED }, emptyTracker) :=
  ⟨(C1_late_event_safety _ _ rfl).1 _ _, (C1_late_event_safety _ _ rfl).2 [] 50 7 9⟩

-- ───────────────────────── Claim C2 ─────────────────────────

/-- C2 counterexample: the claim says no non-lifecycle event mutates a
non-RUNNING state, but `UPDATE_DURATION` (TickDuration) is not status-guarded:
on the initial IDLE state it changes the duration field. -/
theorem C2_status_guard_counterexample :
    (createInitialState .SALES).status ≠ .RUNNING ∧
    (sessionReducer (createInitialState .SALES) (.UPDATE_DURATION 1234) emptyTracker 0).1.duration
      = 1234 ∧
    (createInitialState .SALES).duration = 0 ∧
    (sessionReducer (createInitialState .SALES) (.UPDATE_DURATION 1234) emptyTracker 0).1
      ≠ createInitialState .SALES := by
  refine ⟨by decide, rfl, rfl, fun hEq => ?_⟩
  have := congrArg SessionState.duration hEq
  simp [sessionReducer, createInitialState] at this

/-- C2 (amended): for every session state whose status is not RUNNING, only the
`TRANSCRIPT_CHUNK` and `TACTIC_DETECTED` handlers leave the state unchanged
(they are the only status-guarded handlers); `UPDATE_DURATION`,
`UPDATE_AUDIO_LEVEL`, `SET_ERROR` and `STOP_SESSION` apply their field updates
regardless of status. -/
theorem C2_status_guard_amended (st : SessionState) (tracker : CooldownTracker)
    (h : st.status ≠ .RUNNING) :
    (∀ chunk nowMs, sessionReducer st (.TRANSCRIPT_CHUNK chunk) tracker nowMs = (st, tracker)) ∧
    (∀ patterns focus ts nowMs,
      sessionReducer st (.TACTIC_DETECTED patterns focus ts) tracker nowMs = (st, tracker)) ∧
    (∀ d nowMs, sessionReducer st (.UPDATE_DURATION d) tracker nowMs
      = ({ st with duration := d }, tracker)) ∧
    (∀ l nowMs, sessionReducer st (.UPDATE_AUDIO_LEVEL l) tracker nowMs
      = ({ st with audioLevel := l }, tracker)) ∧
    (∀ msg nowMs, sessionReducer st (.SET_ERROR msg) tracker nowMs
      = ({ st with error := some msg }, tracker)) ∧
    (∀ nowMs, sessionReducer st .STOP_SESSION tracker nowMs
      = ({ st with status := .ENDED }, tracker)) := by
  exact ⟨fun chunk nowMs => reducer_chunk_notRunning h,
         fun patterns focus ts nowMs => reducer_td_notRunning h,
         fun d nowMs => rfl, fun l nowMs => rfl, fun msg nowMs => rfl, fun nowMs => rfl⟩

/-- Witness for C2 (amended) at the concrete IDLE initial state. -/
theorem C2_status_guard_amended_witness :
    sessionReducer (createInitialState .SALES) (.TACTIC_DETECTED [] 50 7) emptyTracker 0
      = (createInitialState .SALES, emptyTracker) ∧
    sessionReducer (createInitialState .SALES) (.UPDATE_DURATION 7) emptyTracker 0
      = ({ createInitialState .SALES with duration := 7 }, emptyTracker) :=
  ⟨(C2_status_guard_amended (createInitialState .SALES) emptyTracker (by decide)).2.1 [] 50 7 0,
   (C2_status_guard_amended (createInitialState .SALES) emptyTracker (by decide)).2.2.1 7 0⟩

-- ───────────────────────── Claim C10 ─────────────────────────

/-- C10: for the Strength Signal tactic, `generateCounterStrategies` returns
none for every confidence, cooldown, threshold, tracker state and time, and
leaves the tracker unchanged: the counter-strategy map has no entry for it,
although the tactic does have a Pattern Definition in the classifier catalog. -/
theorem C10_strength_signal_never_strategy (conf : ℚ) (cd : ℤ) (th : ℚ)
    (tracker : CooldownTracker) (now : ℤ) :
    (generateCounterStrategies .STRENGTH_SIGNAL conf cd th tracker now).1 = none ∧
    (generateCounterStrategies .STRENGTH_SIGNAL conf cd th tracker now).2 = tracker ∧
    COUNTER_STRATEGY_MAP .STRENGTH_SIGNAL = none ∧
    (PATTERN_LIBRARY .STRENGTH_SIGNAL).intent = .STRENGTH_SIGNAL := by
  refine ⟨?_, ?_, rfl, rfl⟩ <;>
    · unfold generateCounterStrategies
      split
      · rfl
      · split
        · rfl
        · rfl

-- ───────────────────────── Claim C7 ─────────────────────────

def runningState : SessionState := { createInitialState .SALES with status := .RUNNING }

def strengthDetection : DetectedPattern :=
  { id := "sp1"
    pattern := .STRENGTH_SIGNAL
    confidenceScore := 90
    suggestion := "s"
    severity := .low
    timestamp := 0
    transcript := "led a team"
    context := "" }

/-- C7 counterexample: when the Strategy Catalog returns nothing (here: a
Strength Signal detection at confidence 90, which has no catalog entry), the
claim says none of tactic/confidence/suggestions/activeStrategy/lastTacticAtMs
change — but the reducer still updates `tactic` (none → STRENGTH_SIGNAL) and
`lastTacticAtMs` (0 → 5). -/
theorem C7_counterexample :
    (generateCounterStrategies .STRENGTH_SIGNAL 90 TACTIC_COOLDOWN_MS CONFIDENCE_THRESHOLD
      emptyTracker 5).1 = none ∧
    (sessionReducer runningState (.TACTIC_DETECTED [strengthDetection] 100 5)
      emptyTracker 5).1.tactic = some .STRENGTH_SIGNAL ∧
    runningState.tactic = none ∧
    (sessionReducer runningState (.TACTIC_DETECTED [strengthDetection] 100 5)
      emptyTracker 5).1.lastTacticAtMs = 5 ∧
    runningState.lastTacticAtMs = 0 := by
  refine ⟨rfl, ?_, rfl, ?_, rfl⟩ <;> decide

/-- C7 (amended): once a `TACTIC_DETECTED` event passes the status, confidence
and same-tactic-cooldown guards, the reducer invokes the Strategy Catalog;
`suggestions` and `activeStrategy` are updated only if a strategy is returned
(and are left unchanged otherwise), while `tactic`, `confidence` and
`lastTacticAtMs` are updated regardless of the catalog's answer. -/
theorem C7_acceptance_amended (st : SessionState) (patterns : List DetectedPattern) (focus : ℚ)
    (ts : ℤ) (tracker : CooldownTracker) (nowMs : ℤ) (top : DetectedPattern)
    (h : st.status = .RUNNING) (hh : (sortedMerged st patterns).head? = some top)
    (hc : ¬ top.confidenceScore < CONFIDENCE_THRESHOLD)
    (hg : ¬ (st.tactic = some top.pattern ∧ ts - st.lastTacticAtMs < TACTIC_COOLDOWN_MS)) :
    (sessionReducer st (.TACTIC_DETECTED patterns focus ts) tracker nowMs).1.tactic
      = some top.pattern ∧
    (sessionReducer st (.TACTIC_DETECTED patterns focus ts) tracker nowMs).1.confidence
      = top.confidenceScore ∧
    (sessionReducer st (.TACTIC_DETECTED patterns focus ts) tracker nowMs).1.lastTacticAtMs
      = ts ∧
    ((generateCounterStrategies top.pattern top.confidenceScore TACTIC_COOLDOWN_MS
        CONFIDENCE_THRESHOLD tracker nowMs).1 = none →
      (sessionReducer st (.TACTIC_DETECTED patterns focus ts) tracker nowMs).1.suggestions
        = st.suggestions ∧
      (sessionReducer st (.TACTIC_DETECTED patterns focus ts) tracker nowMs).1.activeStrategy
        = st.activeStrategy) ∧
    (∀ s, (generateCounterStrategies top.pattern top.confidenceScore TACTIC_COOLDOWN_MS
        CONFIDENCE_THRESHOLD tracker nowMs).1 = some s →
      (sessionReducer st (.TACTIC_DETECTED patterns focus ts) tracker nowMs).1.suggestions
        = s.suggestions ∧
      (sessionReducer st (.TACTIC_DETECTED patterns focus ts) tracker nowMs).1.activeStrategy
        = some s) := by
  rw [reducer_td_accept h hh hc hg]
  refine ⟨rfl, rfl, rfl, fun hnone => ?_, fun s hsome => ?_⟩
  · constructor <;> simp [hnone]
  · constructor <;> simp [hsome]

/-- Witness for C7 (amended) at a concrete accepted detection whose tactic has
no catalog entry: the tactic updates while suggestions/activeStrategy stay. -/
theorem C7_acceptance_amended_witness :
    (sessionReducer runningState (.TACTIC_DETECTED [strengthDetection] 100 5)
      emptyTracker 5).1.tactic = some .STRENGTH_SIGNAL ∧
    (sessionReducer runningState (.TACTIC_DETECTED [strengthDetection] 100 5)
      emptyTracker 5).1.suggestions = runningState.suggestions ∧
    (sessionReducer runningState (.TACTIC_DETECTED [strengthDetection] 100 5)
      emptyTracker 5).1.activeStrategy = runningState.activeStrategy := by
  have h := C7_acceptance_amended runningState [strengthDetection] 100 5 emptyTracker 5
    strengthDetection rfl (by decide) (by decide) (by decide)
  exact ⟨h.1, (h.2.2.2.1 rfl).1, (h.2.2.2.1 rfl).2⟩

-- ───────────────────────── Claim C8 ─────────────────────────

/-- C8 counterexample: the claim says `generateCounterStrategies` returns
nothing exactly when confidence is below threshold or the tactic is on
cooldown.  For STRENGTH_SIGNAL at confidence 90 with an empty tracker neither
condition holds, yet the engine returns none (missing map entry). -/
theorem C8_generate_counterexample :
    ¬ (90 : ℚ) < 70 ∧
    cooldownActive emptyTracker .STRENGTH_SIGNAL 0 10000 = false ∧
    (generateCounterStrategies .STRENGTH_SIGNAL 90 10000 70 emptyTracker 0).1 = none := by
  refine ⟨by norm_num, rfl, rfl⟩

/-- C8 (amended): `generateCounterStrategies` returns nothing exactly when the
confidence is below the threshold, or the tactic's last trigger is within
`cooldownMs` of now, or the tactic has no entry in the counter-strategy map
(Strength Signal); in every remaining case it returns the tactic's static
suggestion/explanation pair as a CounterStrategy and stamps the cooldown
tracker with the current time. -/
theorem C8_generate_contract_amended (t : NegotiationPattern) (conf : ℚ) (cd : ℤ) (th : ℚ)
    (tracker : CooldownTracker) (now : ℤ) :
    (conf < th → generateCounterStrategies t conf cd th tracker now = (none, tracker)) ∧
    (¬ conf < th → cooldownActive tracker t now cd = true →
      generateCounterStrategies t conf cd th tracker now = (none, tracker)) ∧
    (¬ conf < th → cooldownActive tracker t now cd = false → COUNTER_STRATEGY_MAP t = none →
      generateCounterStrategies t conf cd th tracker now = (none, tracker)) ∧
    (∀ d, ¬ conf < th → cooldownActive tracker t now cd = false →
      COUNTER_STRATEGY_MAP t = some d →
      generateCounterStrategies t conf cd th tracker now =
        (some { tactic := t
                tacticDisplayName := (PATTERN_LIBRARY t).displayName
                confidence := conf
                suggestions := d.suggestions
                explanation := d.explanation
                timestamp := now },
         fun t' => if t' = t then some now else tracker t')) :=
  ⟨generate_lowConf, generate_onCooldown, generate_noDef,
   fun _ h1 h2 h3 => generate_someDef h1 h2 h3⟩

/-- Witness for C8 (amended): a rejected low-confidence call and a successful
call for Anchoring. -/
theorem C8_generate_contract_amended_witness :
    generateCounterStrategies .ANCHORING 50 10000 70 emptyTracker 0 = (none, emptyTracker) ∧
    (generateCounterStrategies .ANCHORING 90 10000 70 emptyTracker 3).1 ≠ none := by
  constructor
  · exact (C8_generate_contract_amended .ANCHORING 50 10000 70 emptyTracker 0).1 (by norm_num)
  · have h := (C8_generate_contract_amended .ANCHORING 90 10000 70 emptyTracker 3).2.2.2
      ⟨["Ask for a detailed cost breakdown",
        "Present your own alternative anchor point",
        "Request comparison data from multiple sources"],
       "Anchoring attempts to set a psychological reference point. Counter by introducing your own data-backed reference or questioning their basis."⟩
      (by norm_num) rfl rfl
    rw [h]
    simp

-- ───────────────────────── Claim C3 ─────────────────────────

/-- C3: if tactic T was accepted at time t (state records tactic = T,
lastTacticAtMs = t, the engine tracker was stamped at t and the active
strategy carries timestamp t), then (a) any `TACTIC_DETECTED` event whose top
pattern is T delivered at a timestamp in [t, t+8000) leaves `activeStrategy`
unchanged, and (b) such an event at t+8001 with confidence ≥ 70 does change
`activeStrategy` (provided T has a counter-strategy entry, which holds
whenever an active strategy for T was produced at all). -/
theorem C3_same_tactic_cooldown (st : SessionState) (T : NegotiationPattern) (t : ℤ)
    (tracker : CooldownTracker) (h1 : st.status = .RUNNING) (h2 : st.tactic = some T)
    (h3 : st.lastTacticAtMs = t) :
    (∀ patterns focus ts nowMs top,
      (sortedMerged st patterns).head? = some top → top.pattern = T →
      t ≤ ts → ts < t + 8000 →
      (sessionReducer st (.TACTIC_DETECTED patterns focus ts) tracker nowMs).1.activeStrategy
        = st.activeStrategy) ∧
    (∀ patterns focus top s0 d,
      (sortedMerged st patterns).head? = some top → top.pattern = T →
      CONFIDENCE_THRESHOLD ≤ top.confidenceScore →
      tracker T = some t → COUNTER_STRATEGY_MAP T = some d →
      st.activeStrategy = some s0 → s0.timestamp = t →
      (sessionReducer st (.TACTIC_DETECTED patterns focus (t + 8001))
        tracker (t + 8001)).1.activeStrategy ≠ st.activeStrategy) := by
  constructor
  · intro patterns focus ts nowMs top hh htop hts1 hts2
    rcases lt_or_le top.confidenceScore CONFIDENCE_THRESHOLD with hc | hc
    · rw [reducer_td_guard2 h1 hh hc]
    · have hg : st.tactic = some top.pattern ∧ ts - st.lastTacticAtMs < TACTIC_COOLDOWN_MS := by
        refine ⟨by rw [htop, h2], ?_⟩
        rw [h3]
        unfold TACTIC_COOLDOWN_MS
        omega
      rw [reducer_td_guard3 h1 hh (not_lt.mpr hc) hg]
  · intro patterns focus top s0 d hh htop hc htr hmap hact hts
    have hc' : ¬ top.confidenceScore < CONFIDENCE_THRESHOLD := not_lt.mpr hc
    have hg : ¬ (st.tactic = some top.pattern ∧
        (t + 8001) - st.lastTacticAtMs < TACTIC_COOLDOWN_MS) := by
      rintro ⟨-, habs⟩
      rw [h3] at habs
      unfold TACTIC_COOLDOWN_MS at habs
      omega
    rw [reducer_td_accept h1 hh hc' hg]
    have hcool : cooldownActive tracker top.pattern (t + 8001) TACTIC_COOLDOWN_MS = false := by
      rw [htop]
      unfold cooldownActive
      rw [htr]
      have hdec : decide (t + 8001 - t < TACTIC_COOLDOWN_MS) = false :=
        decide_eq_false (by unfold TACTIC_COOLDOWN_MS; omega)
      simp [hdec]
      intro _
      unfold TACTIC_COOLDOWN_MS
      omega
    have hgen := generate_someDef (d := d) hc' hcool (by rw [htop]; exact hmap)
    rw [hgen, hact]
    intro hEq
    simp only [Option.some.injEq] at hEq
    have : t + 8001 = s0.timestamp := congrArg CounterStrategy.timestamp hEq
    rw [hts] at this
    omega

def c3Strategy : CounterStrategy :=
  { tactic := .ANCHORING
    tacticDisplayName := "Anchoring"
    confidence := 80
    suggestions := []
    explanation := ""
    timestamp := 1000 }

def c3State : SessionState :=
  { createInitialState .SALES with
      status := .RUNNING
      tactic := some .ANCHORING
      lastTacticAtMs := 1000
      activeStrategy := some c3Strategy }

def c3Tracker : CooldownTracker := fun t => if t = .ANCHORING then some 1000 else none

def c3Detection : DetectedPattern :=
  { id := "a1"
    pattern := .ANCHORING
    confidenceScore := 80
    suggestion := "s"
    severity := .high
    timestamp := 0
    transcript := "we offer 6"
    context := "" }

/-- Witness for C3: Anchoring accepted at t = 1000; a repeat at 1500 leaves
the active strategy unchanged, a repeat at 9001 replaces it. -/
theorem C3_same_tactic_cooldown_witness :
    (sessionReducer c3State (.TACTIC_DETECTED [c3Detection] 100 1500)
      c3Tracker 1500).1.activeStrategy = c3State.activeStrategy ∧
    (sessionReducer c3State (.TACTIC_DETECTED [c3Detection] 100 9001)
      c3Tracker 9001).1.activeStrategy ≠ c3State.activeStrategy := by
  have h := C3_same_tactic_cooldown c3State .ANCHORING 1000 c3Tracker rfl rfl rfl
  constructor
  · exact h.1 [c3Detection] 100 1500 1500 c3Detection (by decide) rfl (by decide) (by decide)
  · exact h.2 [c3Detection] 100 c3Detection c3Strategy
      ⟨["Ask for a detailed cost breakdown",
        "Present your own alternative anchor point",
        "Request comparison data from multiple sources"],
       "Anchoring attempts to set a psychological reference point. Counter by introducing your own data-backed reference or questioning their basis."⟩
      (by decide) rfl (by decide) rfl rfl rfl rfl

-- ───────────────────────── Classifier lemmas ─────────────────────────

lemma evalTactic_patternDef {lt : List Char} {hn : Bool} {mode : NegotiationMode} {sens : ℚ}
    {t : NegotiationPattern} {c : Candidate} (h : evalTactic lt hn mode sens t = some c) :
    c.patternDef = PATTERN_LIBRARY t := by
  unfold evalTactic at h
  split at h
  · exact absurd h (by simp)
  · split at h
    · exact absurd h (by simp)
    · rw [← Option.some.inj h]

lemma evalTactic_noNumber {lt : List Char} {mode : NegotiationMode} {sens : ℚ}
    {t : NegotiationPattern} (h1 : (PATTERN_LIBRARY t).requiresNumber = true) :
    evalTactic lt false mode sens t = none := by
  unfold evalTactic
  split
  · rfl
  · rw [if_pos ⟨h1, rfl⟩]

lemma candidates_source {text : String} {mode : NegotiationMode} {sens : ℚ} {c : Candidate}
    (h : c ∈ classifierCandidates text mode sens) :
    ∃ t, t ∈ allPatternsList ∧
      evalTactic (lowerChars text) (hasNumbers (lowerChars text)) mode sens t = some c := by
  simp only [classifierCandidates] at h
  exact List.mem_filterMap.mp h

-- ───────────────────────── Claim C4 ─────────────────────────

/-- C4: the classifier is winner-take-all: every call returns at most one
detected pattern; it returns the empty list exactly when every non-discarded
candidate scores below 60, hence exactly one pattern when the highest-scoring
candidate reaches 60. -/
theorem C4_winner_take_all (text : String) (mode : NegotiationMode) (sens : ℚ)
    (timestamp : ℤ) (randIdx : ℕ) :
    (classifyIntent text mode sens timestamp randIdx).length ≤ 1 ∧
    (classifyIntent text mode sens timestamp randIdx = [] ↔
      ∀ c ∈ classifierCandidates text mode sens, c.score < 60) ∧
    ((∃ c ∈ classifierCandidates text mode sens, 60 ≤ c.score) →
      (classifyIntent text mode sens timestamp randIdx).length = 1) := by
  cases hsort : List.insertionSort byScoreDesc (classifierCandidates text mode sens) with
  | nil =>
    have hnil : classifierCandidates text mode sens = [] := by
      have hp := List.perm_insertionSort byScoreDesc (classifierCandidates text mode sens)
      rw [hsort] at hp
      exact hp.symm.eq_nil
    have hcl : classifyIntent text mode sens timestamp randIdx = [] := by
      simp [classifyIntent, hsort]
    refine ⟨by simp [hcl], by simp [hcl, hnil], ?_⟩
    rintro ⟨c, hc, -⟩
    rw [hnil] at hc
    exact absurd hc (List.not_mem_nil c)
  | cons w tl =>
    have hperm : List.Perm (List.insertionSort byScoreDesc (classifierCandidates text mode sens))
        (classifierCandidates text mode sens) :=
      List.perm_insertionSort byScoreDesc (classifierCandidates text mode sens)
    have hwmem : w ∈ classifierCandidates text mode sens := by
      rw [← hperm.mem_iff, hsort]
      exact List.mem_cons_self w tl
    have hmax : ∀ c ∈ classifierCandidates text mode sens, c.score ≤ w.score := by
      intro c hc
      rw [← hperm.mem_iff, hsort] at hc
      rcases List.mem_cons.mp hc with rfl | hc'
      · exact le_refl _
      · have hsorted := List.sorted_insertionSort byScoreDesc (classifierCandidates text mode sens)
        rw [hsort] at hsorted
        exact List.rel_of_sorted_cons hsorted c hc'
    have hcl : classifyIntent text mode sens timestamp randIdx =
        if 60 ≤ w.score then
          [{ id := patternKey w.patternDef.intent ++ "_" ++ toString timestamp
             pattern := w.patternDef.intent
             confidenceScore := w.score
             suggestion := pickRandomSuggestion w.patternDef.suggestions randIdx
             severity := w.patternDef.severity
             timestamp := timestamp
             transcript := text
             context := text.take 50 ++ "..." }]
        else [] := by
      simp [classifyIntent, hsort]
    by_cases h60 : 60 ≤ w.score
    · rw [hcl, if_pos h60]
      refine ⟨by simp, ?_, fun _ => by simp⟩
      simp only [List.cons_ne_nil, false_iff, not_forall]
      exact ⟨w, hwmem, by simp [not_lt.mpr h60]⟩
    · rw [hcl, if_neg h60]
      refine ⟨by simp, ?_, ?_⟩
      · simp only [true_iff]
        intro c hc
        exact lt_of_le_of_lt (hmax c hc) (not_le.mp h60)
      · rintro ⟨c, hc, hc60⟩
        exact absurd (le_trans hc60 (hmax c hc)) (by simpa using h60)

-- ───────────────────────── Concrete classifier evaluations ─────────────────────────

def exampleText : String := "We usually offer around 6 LPA for this position."

unseal Rat.add Rat.sub Rat.mul Rat.inv Rat.ofScientific in
lemma exampleCandidates :
    classifierCandidates exampleText .JOB_INTERVIEW 1 = [⟨PATTERN_LIBRARY .ANCHORING, 60⟩] := by
  decide

/-- Witness for C4: on the anchoring example text the single candidate reaches
60, and exactly one detected pattern is returned. -/
theorem C4_winner_take_all_witness :
    (classifyIntent exampleText .JOB_INTERVIEW 1 0 0).length = 1 :=
  (C4_winner_take_all exampleText .JOB_INTERVIEW 1 0 0).2.2
    ⟨⟨PATTERN_LIBRARY .ANCHORING, 60⟩,
     by rw [exampleCandidates]; exact List.mem_singleton_self _,
     by norm_num⟩

-- ───────────────────────── Claim C5 ─────────────────────────

/-- C5: for every tactic whose pattern definition requires a number, and every
text whose lower-cased form contains no digit and no number word (the
`hasNumbers` test), the classifier never returns that tactic, regardless of
structural or topic matches. -/
theorem C5_numeric_gate (text : String) (mode : NegotiationMode) (sens : ℚ)
    (timestamp : ℤ) (randIdx : ℕ) (t : NegotiationPattern)
    (h1 : (PATTERN_LIBRARY t).requiresNumber = true)
    (h2 : hasNumbers (lowerChars text) = false) :
    ∀ p ∈ classifyIntent text mode sens timestamp randIdx, p.pattern ≠ t := by
  intro p hp
  cases hsort : List.insertionSort byScoreDesc (classifierCandidates text mode sens) with
  | nil => simp [classifyIntent, hsort] at hp
  | cons w tl =>
    have hwmem : w ∈ classifierCandidates text mode sens := by
      have hperm := List.perm_insertionSort byScoreDesc (classifierCandidates text mode sens)
      rw [hsort] at hperm
      exact hperm.mem_iff.mp (List.mem_cons_self w tl)
    simp only [classifyIntent, hsort, List.head?_cons] at hp
    by_cases h60 : 60 ≤ w.score
    · rw [if_pos h60] at hp
      have hpD := List.mem_singleton.mp hp
      obtain ⟨t', -, ht'⟩ := candidates_source hwmem
      have hpd := evalTactic_patternDef ht'
      intro hEq
      have ht'eq : t' = t := by
        rw [hpD] at hEq
        simp only at hEq
        rw [hpd, library_intent] at hEq
        exact hEq
      rw [ht'eq, h2] at ht'
      rw [evalTactic_noNumber h1] at ht'
      exact absurd ht' (by simp)
    · rw [if_neg h60] at hp
      exact absurd hp (List.not_mem_nil p)

def budgetDetection : DetectedPattern :=
  { id := "budget_objection_0"
    pattern := .BUDGET_OBJECTION
    confidenceScore := 195/2
    suggestion := "Ask about budget flexibility and approval thresholds"
    severity := .high
    timestamp := 0
    transcript := "that is too expensive for us"
    context := "that is too expensive for us..." }

-- Witness for C5: a digit-free text is classified (Budget Objection), and
-- the theorem instantiated at Anchoring shows the returned pattern is not the
-- number-requiring Anchoring tactic.
unseal Rat.add Rat.sub Rat.mul Rat.inv Rat.ofScientific in
theorem C5_numeric_gate_witness :
    (PATTERN_LIBRARY .ANCHORING).requiresNumber = true ∧
    hasNumbers (lowerChars "that is too expensive for us") = false ∧
    budgetDetection ∈ classifyIntent "that is too expensive for us" .SALES 1 0 0 ∧
    budgetDetection.pattern ≠ .ANCHORING :=
  ⟨rfl, by decide, by decide,
   C5_numeric_gate "that is too expensive for us" .SALES 1 0 0 .ANCHORING rfl (by decide)
     budgetDetection (by decide)⟩

-- ───────────────────────── Score bound lemmas ─────────────────────────

lemma topicScoreQ_nonneg (pd : PatternDefinition) (lt : List Char) : 0 ≤ topicScoreQ pd lt := by
  unfold topicScoreQ
  exact le_min (by positivity) (by norm_num)

lemma numericScoreQ_nonneg (pd : PatternDefinition) (hn : Bool) : 0 ≤ numericScoreQ pd hn := by
  unfold numericScoreQ
  split <;> norm_num

lemma negativePenaltyQ_le_one (pd : PatternDefinition) (lt : List Char) :
    negativePenaltyQ pd lt ≤ 1 := by
  unfold negativePenaltyQ
  split <;> norm_num

lemma primaryMatchScoreQ_ge (pd : PatternDefinition) (lt : List Char)
    (h : 0 ≤ pd.baseWeight) : pd.baseWeight * 0.7 ≤ primaryMatchScoreQ pd lt := by
  unfold primaryMatchScoreQ
  split
  · nlinarith
  · exact le_refl _

lemma rawScoreQ_ge (t : NegotiationPattern) (lt : List Char) (hn : Bool) :
    (17/100 : ℚ) ≤ rawScoreQ (PATTERN_LIBRARY t) lt hn := by
  have hbw := baseWeight_ge t
  have h0 : (0:ℚ) ≤ (PATTERN_LIBRARY t).baseWeight := le_trans (by norm_num) hbw
  have hp := primaryMatchScoreQ_ge (PATTERN_LIBRARY t) lt h0
  have ht := topicScoreQ_nonneg (PATTERN_LIBRARY t) lt
  have hnm := numericScoreQ_nonneg (PATTERN_LIBRARY t) hn
  have hneg := negativePenaltyQ_le_one (PATTERN_LIBRARY t) lt
  unfold rawScoreQ
  nlinarith

lemma clamp0100_mono {x y : ℚ} (h : x ≤ y) : clamp0100 x ≤ clamp0100 y := by
  unfold clamp0100
  exact min_le_min (max_le_max h (le_refl 0)) (le_refl 100)

lemma clamp0100_of_nonpos {x : ℚ} (h : x ≤ 0) : clamp0100 x = 0 := by
  unfold clamp0100
  rw [max_eq_right h]
  exact min_eq_left (by norm_num)

-- ───────────────────────── Claim C6 ─────────────────────────

/-- C6: for every input text, sensitivity and tactic, the final confidence
score computed under a scenario that suppresses the tactic (low-weight set) is
at most the score computed under a scenario where the tactic is neutral
(neither boosted nor suppressed); the skip/discard outcome is the same in both
scenarios. -/
theorem C6_suppression_monotone (text : String) (sens : ℚ) (t : NegotiationPattern)
    (m1 m2 : NegotiationMode)
    (h0 : t ∉ (MODE_INTENT_MATRIX m1).highWeight)
    (h1 : t ∈ (MODE_INTENT_MATRIX m1).lowWeight)
    (h2 : t ∉ (MODE_INTENT_MATRIX m2).highWeight)
    (h3 : t ∉ (MODE_INTENT_MATRIX m2).lowWeight) :
    ∀ c1, evalTactic (lowerChars text) (hasNumbers (lowerChars text)) m1 sens t = some c1 →
      ∃ c2, evalTactic (lowerChars text) (hasNumbers (lowerChars text)) m2 sens t = some c2 ∧
        c1.score ≤ c2.score := by
  intro c1 hc1
  have ha1 : modeAdjustmentQ m1 (PATTERN_LIBRARY t) = -0.15 := by
    unfold modeAdjustmentQ
    rw [library_intent, if_neg h0, if_pos h1]
  have ha2 : modeAdjustmentQ m2 (PATTERN_LIBRARY t) = 0 := by
    unfold modeAdjustmentQ
    rw [library_intent, if_neg h2, if_neg h3]
  unfold evalTactic at hc1 ⊢
  split at hc1
  · exact absurd hc1 (by simp)
  · split at hc1
    · exact absurd hc1 (by simp)
    · rename_i hskip hnum
      rw [if_neg hskip, if_neg hnum]
      refine ⟨_, rfl, ?_⟩
      obtain rfl := Option.some.inj hc1
      simp only [ha1, ha2]
      have hraw := rawScoreQ_ge t (lowerChars text) (hasNumbers (lowerChars text))
      set raw := rawScoreQ (PATTERN_LIBRARY t) (lowerChars text) (hasNumbers (lowerChars text))
        with hrawdef
      rcases le_or_lt 0 sens with hs | hs
      · apply clamp0100_mono
        have hstep : (raw + (-0.15 : ℚ)) * sens ≤ (raw + 0) * sens :=
          mul_le_mul_of_nonneg_right (by norm_num) hs
        exact mul_le_mul_of_nonneg_right hstep (by norm_num)
      · have hr1 : (0:ℚ) ≤ raw + (-0.15 : ℚ) := by linarith
        have hr2 : (0:ℚ) ≤ raw + 0 := by linarith
        have hneg : sens ≤ 0 := le_of_lt hs
        rw [clamp0100_of_nonpos (by nlinarith), clamp0100_of_nonpos (by nlinarith)]

-- Witness for C6: Anchoring on the example text, suppressed in JOB_INTERVIEW
-- (score 60) versus neutral in SALES (score 75).
unseal Rat.add Rat.sub Rat.mul Rat.inv Rat.ofScientific in
theorem C6_suppression_monotone_witness :
    NegotiationPattern.ANCHORING ∈ (MODE_INTENT_MATRIX .JOB_INTERVIEW).lowWeight ∧
    NegotiationPattern.ANCHORING ∉ (MODE_INTENT_MATRIX .SALES).highWeight ∧
    NegotiationPattern.ANCHORING ∉ (MODE_INTENT_MATRIX .SALES).lowWeight ∧
    evalTactic (lowerChars exampleText) (hasNumbers (lowerChars exampleText)) .JOB_INTERVIEW 1
      .ANCHORING = some ⟨PATTERN_LIBRARY .ANCHORING, 60⟩ ∧
    (∃ c2, evalTactic (lowerChars exampleText) (hasNumbers (lowerChars exampleText)) .SALES 1
        .ANCHORING = some c2 ∧ (⟨PATTERN_LIBRARY .ANCHORING, 60⟩ : Candidate).score ≤ c2.score) :=
  ⟨by decide, by decide, by decide, by decide,
   C6_suppression_monotone exampleText 1 .ANCHORING .JOB_INTERVIEW .SALES
     (by decide) (by decide) (by decide) (by decide) ⟨PATTERN_LIBRARY .ANCHORING, 60⟩ (by decide)⟩

-- ───────────────────────── Claim C9 ─────────────────────────

def c9Detection : DetectedPattern :=
  { id := "anchoring_0"
    pattern := .ANCHORING
    confidenceScore := 60
    suggestion := "Ask for a detailed cost breakdown"
    severity := .high
    timestamp := 0
    transcript := exampleText
    context := exampleText.take 50 ++ "..." }

-- C9 counterexample: on the example text the classifier detects Anchoring at
-- confidence exactly 60, which is below the strategy engine's threshold of 70,
-- so the engine returns no CounterStrategy for this detection — contrary to the
-- claim that a counter-strategy containing the breakdown suggestion is returned.
unseal Rat.add Rat.sub Rat.mul Rat.inv Rat.ofScientific in
theorem C9_example_counterexample :
    classifyIntent exampleText .JOB_INTERVIEW 1 0 0 = [c9Detection] ∧
    c9Detection.confidenceScore = 60 ∧
    (60 : ℚ) < CONFIDENCE_THRESHOLD ∧
    (generateCounterStrategies .ANCHORING 60 TACTIC_COOLDOWN_MS CONFIDENCE_THRESHOLD
      emptyTracker 0).1 = none := by
  refine ⟨by decide, rfl, by norm_num [CONFIDENCE_THRESHOLD], by decide⟩

lemma exampleClassification (ts : ℤ) (r : ℕ) :
    classifyIntent exampleText .JOB_INTERVIEW 1 ts r =
      [{ id := "anchoring_" ++ toString ts
         pattern := .ANCHORING
         confidenceScore := 60
         suggestion := pickRandomSuggestion (PATTERN_LIBRARY .ANCHORING).suggestions r
         severity := .high
         timestamp := ts
         transcript := exampleText
         context := exampleText.take 50 ++ "..." }] := by
  unfold classifyIntent
  rw [exampleCandidates]
  simp only [List.insertionSort, List.orderedInsert, List.head?_cons]
  rw [if_pos (by norm_num : (60:ℚ) ≤ (⟨PATTERN_LIBRARY .ANCHORING, 60⟩ : Candidate).score)]
  rfl

def anchoringStrategyDef : CounterStrategyDefinition :=
  { suggestions :=
      ["Ask for a detailed cost breakdown",
       "Present your own alternative anchor point",
       "Request comparison data from multiple sources"]
    explanation :=
      "Anchoring attempts to set a psychological reference point. Counter by introducing your own data-backed reference or questioning their basis." }

/-- C9 (amended): for the input "We usually offer around 6 LPA for this
position." in the job-interview scenario at sensitivity 1.0, the classifier
detects Anchoring with confidence ≥ 60 (exactly 60); the counter-strategy
map entry for Anchoring contains "Ask for a detailed cost breakdown", and the
engine returns a CounterStrategy containing that suggestion whenever the
confidence reaches the engine threshold 70 and Anchoring is off cooldown —
but not for this detection itself, whose confidence 60 is below 70. -/
theorem C9_example_scenario_amended :
    (∀ ts r, ∃ p, classifyIntent exampleText .JOB_INTERVIEW 1 ts r = [p] ∧
      p.pattern = .ANCHORING ∧ 60 ≤ p.confidenceScore) ∧
    (∃ d, COUNTER_STRATEGY_MAP .ANCHORING = some d ∧
      "Ask for a detailed cost breakdown" ∈ d.suggestions) ∧
    (∀ conf tracker nowMs, CONFIDENCE_THRESHOLD ≤ conf →
      cooldownActive tracker .ANCHORING nowMs TACTIC_COOLDOWN_MS = false →
      ∃ s, (generateCounterStrategies .ANCHORING conf TACTIC_COOLDOWN_MS CONFIDENCE_THRESHOLD
        tracker nowMs).1 = some s ∧ "Ask for a detailed cost breakdown" ∈ s.suggestions) := by
  refine ⟨fun ts r => ⟨_, exampleClassification ts r, rfl, by norm_num⟩, ?_, ?_⟩
  · exact ⟨_, rfl, by simp⟩
  · intro conf tracker nowMs hconf hcool
    have hgen := generate_someDef (d := anchoringStrategyDef) (not_lt.mpr hconf) hcool rfl
    refine ⟨{ tactic := .ANCHORING
              tacticDisplayName := (PATTERN_LIBRARY .ANCHORING).displayName
              confidence := conf
              suggestions := anchoringStrategyDef.suggestions
              explanation := anchoringStrategyDef.explanation
              timestamp := nowMs }, ?_, ?_⟩
    · rw [hgen]
    · simp [anchoringStrategyDef]

-- Witness for C9 (amended): concrete instantiations of both universally
-- quantified parts.
theorem C9_example_scenario_amended_witness :
    (∃ p, classifyIntent exampleText .JOB_INTERVIEW 1 5 2 = [p] ∧
      p.pattern = .ANCHORING ∧ 60 ≤ p.confidenceScore) ∧
    (∃ s, (generateCounterStrategies .ANCHORING 80 TACTIC_COOLDOWN_MS CONFIDENCE_THRESHOLD
      emptyTracker 0).1 = some s ∧ "Ask for a detailed cost breakdown" ∈ s.suggestions) :=
  ⟨C9_example_scenario_amended.1 5 2,
   C9_example_scenario_amended.2.2 80 emptyTracker 0 (by norm_num [CONFIDENCE_THRESHOLD]) rfl⟩
